import Mathlib

/-!
Verification development for the real-time data-delivery subsystem of the
laplace-python-sdk repository: the SSE streaming channels
(`laplace/live_price.py`) and the WebSocket push client
(`laplace/websocket.py`), together with the pydantic wire models they use
(`laplace/models.py`).

The Python code is shallowly embedded: JSON decoding (`json.loads`) is
modelled by an executable recursive-descent parser over Lean strings, the
pydantic model validation is modelled field by field (aliases,
`populate_by_name`, required fields, lax numeric coercions between int and
float, no string-to-number coercion), and the stateful clients are modelled
as explicit state-passing functions.  JSON numbers are represented as
Python's `json` module represents them: integer literals as `Int`, decimal
literals as `Rat`.
-/

/-- A JSON value as produced by Python's `json.loads`: integer literals and
decimal literals are distinguished (Python `int` versus `float`). -/
inductive Json where
  | null : Json
  | bool (b : Bool) : Json
  | int (n : Int) : Json
  | num (q : Rat) : Json
  | str (s : String) : Json
  | arr (xs : List Json) : Json
  | obj (fields : List (String × Json)) : Json

namespace JsonParse

/-- Whitespace characters skipped by the JSON grammar. -/
def isJsonWs (c : Char) : Bool :=
  c = ' ' || c = '\t' || c = '\n' || c = '\r'

def skipWs (cs : List Char) : List Char :=
  cs.dropWhile isJsonWs

def isDigitCh (c : Char) : Bool :=
  '0' ≤ c && c ≤ '9'

def digitsToNat (ds : List Char) : Nat :=
  ds.foldl (fun a c => a * 10 + (c.toNat - 48)) 0

def hexDigitToNat (c : Char) : Option Nat :=
  if '0' ≤ c ∧ c ≤ '9' then some (c.toNat - 48)
  else if 'a' ≤ c ∧ c ≤ 'f' then some (c.toNat - 87)
  else if 'A' ≤ c ∧ c ≤ 'F' then some (c.toNat - 55)
  else none

/-- Parse the body of a JSON string literal (the opening quote already
consumed), handling the standard escapes. -/
def parseStringBody : Nat → List Char → Option (String × List Char)
  | 0, _ => none
  | _, [] => none
  | fuel + 1, c :: rest =>
    if c = '"' then
      some ("", rest)
    else if c = '\\' then
      match rest with
      | [] => none
      | e :: rest2 =>
        let ch? : Option (Char × List Char) :=
          if e = '"' then some ('"', rest2)
          else if e = '\\' then some ('\\', rest2)
          else if e = '/' then some ('/', rest2)
          else if e = 'b' then some ('\x08', rest2)
          else if e = 'f' then some ('\x0c', rest2)
          else if e = 'n' then some ('\n', rest2)
          else if e = 'r' then some ('\r', rest2)
          else if e = 't' then some ('\t', rest2)
          else if e = 'u' then
            match rest2 with
            | h1 :: h2 :: h3 :: h4 :: rest3 =>
              match hexDigitToNat h1, hexDigitToNat h2, hexDigitToNat h3, hexDigitToNat h4 with
              | some a, some b, some c2, some d =>
                some (Char.ofNat (((a * 16 + b) * 16 + c2) * 16 + d), rest3)
              | _, _, _, _ => none
            | _ => none
          else none
        match ch? with
        | none => none
        | some (ch, rest3) =>
          match parseStringBody fuel rest3 with
          | none => none
          | some (s, rest4) => some (String.mk (ch :: s.data), rest4)
    else
      match parseStringBody fuel rest with
      | none => none
      | some (s, rest2) => some (String.mk (c :: s.data), rest2)

/-- Parse a JSON number.  Integer literals (no fraction, no exponent) yield
`Json.int`; anything with a fraction or exponent yields `Json.num`, matching
Python's int/float distinction. -/
def parseNumber (cs : List Char) : Option (Json × List Char) :=
  let (negSign, cs1) :=
    match cs with
    | '-' :: rest => (true, rest)
    | _ => (false, cs)
  let intDigits := cs1.takeWhile isDigitCh
  let cs2 := cs1.dropWhile isDigitCh
  if intDigits.isEmpty then none
  else
    let (fracDigits, cs3, hasFrac) :=
      match cs2 with
      | '.' :: rest =>
        (rest.takeWhile isDigitCh, rest.dropWhile isDigitCh, true)
      | _ => ([], cs2, false)
    if hasFrac ∧ fracDigits.isEmpty then none
    else
      let (expVal, cs5, hasExp, expOk) :=
        match cs3 with
        | e :: rest =>
          if e = 'e' ∨ e = 'E' then
            let (eneg, rest2) :=
              match rest with
              | '-' :: r => (true, r)
              | '+' :: r => (false, r)
              | _ => (false, rest)
            let eDigits := rest2.takeWhile isDigitCh
            let rest3 := rest2.dropWhile isDigitCh
            if eDigits.isEmpty then ((0 : Int), cs3, true, false)
            else
              let ev : Int := Int.ofNat (digitsToNat eDigits)
              ((if eneg then -ev else ev), rest3, true, true)
          else ((0 : Int), cs3, false, true)
        | [] => ((0 : Int), cs3, false, true)
      if ¬expOk then none
      else
        if hasFrac ∨ hasExp then
          let mantissa : Int :=
            Int.ofNat (digitsToNat intDigits * 10 ^ fracDigits.length + digitsToNat fracDigits)
          let signedMant : Int := if negSign then -mantissa else mantissa
          let q : Rat :=
            if 0 ≤ expVal then
              mkRat (signedMant * Int.ofNat (10 ^ expVal.toNat)) (10 ^ fracDigits.length)
            else
              mkRat signedMant (10 ^ fracDigits.length * 10 ^ (-expVal).toNat)
          some (Json.num q, cs5)
        else
          let n : Int := Int.ofNat (digitsToNat intDigits)
          some (Json.int (if negSign then -n else n), cs5)

mutual

/-- Parse one JSON value (fuel-bounded recursive descent). -/
def parseValue : Nat → List Char → Option (Json × List Char)
  | 0, _ => none
  | fuel + 1, cs =>
    match skipWs cs with
    | [] => none
    | c :: rest =>
      if c = '\x7b' then
        parseObjBody fuel rest
      else if c = '[' then
        parseArrBody fuel rest
      else if c = '"' then
        match parseStringBody (fuel + 1) rest with
        | none => none
        | some (s, rest2) => some (Json.str s, rest2)
      else if c = 't' then
        match rest with
        | 'r' :: 'u' :: 'e' :: rest2 => some (Json.bool true, rest2)
        | _ => none
      else if c = 'f' then
        match rest with
        | 'a' :: 'l' :: 's' :: 'e' :: rest2 => some (Json.bool false, rest2)
        | _ => none
      else if c = 'n' then
        match rest with
        | 'u' :: 'l' :: 'l' :: rest2 => some (Json.null, rest2)
        | _ => none
      else
        parseNumber (c :: rest)

/-- Parse the members of an object, the opening brace already consumed. -/
def parseObjBody : Nat → List Char → Option (Json × List Char)
  | 0, _ => none
  | fuel + 1, cs =>
    match skipWs cs with
    | '\x7d' :: rest => some (Json.obj [], rest)
    | cs1 =>
      match parseMembers fuel cs1 with
      | none => none
      | some (fields, rest) => some (Json.obj fields, rest)

/-- Parse a non-empty comma-separated member list, up to and including the
closing brace. -/
def parseMembers : Nat → List Char → Option (List (String × Json) × List Char)
  | 0, _ => none
  | fuel + 1, cs =>
    match skipWs cs with
    | '"' :: rest =>
      match parseStringBody (fuel + 1) rest with
      | none => none
      | some (key, rest2) =>
        match skipWs rest2 with
        | ':' :: rest3 =>
          match parseValue fuel rest3 with
          | none => none
          | some (v, rest4) =>
            match skipWs rest4 with
            | ',' :: rest5 =>
              match parseMembers fuel rest5 with
              | none => none
              | some (fields, rest6) => some ((key, v) :: fields, rest6)
            | '\x7d' :: rest5 => some ([(key, v)], rest5)
            | _ => none
        | _ => none
    | _ => none

/-- Parse the elements of an array, the opening bracket already consumed. -/
def parseArrBody : Nat → List Char → Option (Json × List Char)
  | 0, _ => none
  | fuel + 1, cs =>
    match skipWs cs with
    | ']' :: rest => some (Json.arr [], rest)
    | cs1 =>
      match parseElems fuel cs1 with
      | none => none
      | some (xs, rest) => some (Json.arr xs, rest)

/-- Parse a non-empty comma-separated element list, up to and including the
closing bracket. -/
def parseElems : Nat → List Char → Option (List Json × List Char)
  | 0, _ => none
  | fuel + 1, cs =>
    match parseValue fuel cs with
    | none => none
    | some (v, rest) =>
      match skipWs rest with
      | ',' :: rest2 =>
        match parseElems fuel rest2 with
        | none => none
        | some (xs, rest3) => some (v :: xs, rest3)
      | ']' :: rest2 => some ([v], rest2)
      | _ => none

end

end JsonParse

/-- Model of Python's `json.loads`: parse the whole string as one JSON value
(anything but whitespace left over is an error).  A failure stands for
`json.JSONDecodeError`. -/
def jsonLoads (s : String) : Except String Json :=
  match JsonParse.parseValue (s.length + 16) s.data with
  | none => .error "Expecting value"
  | some (v, rest) =>
    if (JsonParse.skipWs rest).isEmpty then .ok v
    else .error "Extra data"

/-! ## Wire models (`laplace/models.py`)

Each pydantic model is embedded as a structure together with a `fromJson`
validator that mirrors pydantic v2 validation as the code relies on it:
field aliases, `populate_by_name` where the model declares it, required
fields, extra keys ignored, int accepted for float fields, and integral
floats accepted for int fields.  (Pydantic's lax string-to-number coercions
are not exercised by this code base and are not modelled.) -/

/-- Dictionary lookup as Python's `dict` built by `json.loads` behaves:
the last occurrence of a duplicated key wins. -/
def Json.getField (fields : List (String × Json)) (key : String) : Option Json :=
  fields.foldl (fun acc p => if p.1 = key then some p.2 else acc) none

/-- Field lookup for a pydantic model with `populate_by_name = True`:
the alias key takes priority, the field name is accepted as fallback. -/
def Json.lookupAliased (fields : List (String × Json)) (aliasKey fieldName : String) :
    Option Json :=
  match Json.getField fields aliasKey with
  | some v => some v
  | none => Json.getField fields fieldName

/-- Validate a `str` field. -/
def vStr : Option Json → Except String String
  | some (.str s) => .ok s
  | some _ => .error "Input should be a valid string"
  | none => .error "Field required"

/-- Validate a `float` field (accepts JSON ints and floats). -/
def vFloat : Option Json → Except String Rat
  | some (.int n) => .ok (n : Rat)
  | some (.num q) => .ok q
  | some _ => .error "Input should be a valid number"
  | none => .error "Field required"

/-- Validate an `int` field (accepts JSON ints and integral floats). -/
def vInt : Option Json → Except String Int
  | some (.int n) => .ok n
  | some (.num q) =>
    if q.den = 1 then .ok q.num else .error "Input should be a valid integer"
  | some _ => .error "Input should be a valid integer"
  | none => .error "Field required"

/-- Validate a list field element-wise. -/
def vList (f : Json → Except String α) : Option Json → Except String (List α)
  | some (.arr xs) => xs.mapM f
  | some _ => .error "Input should be a valid list"
  | none => .error "Field required"

/-- The `Region` enum from `models.py`. -/
inductive Region where
  | TR : Region
  | US : Region
deriving DecidableEq, Repr

/-- The wire string of each `Region` member (`Region.TR.value == "tr"`). -/
def Region.value : Region → String
  | .TR => "tr"
  | .US => "us"

/-- The `MessageType` enum from `models.py`. -/
inductive MessageType where
  | PRICE : MessageType
  | STATE_CHANGE : MessageType
  | HEARTBEAT : MessageType
  | ORDERBOOK : MessageType
deriving DecidableEq, Repr

/-- Validate a `MessageType` field (a str enum: the member's string value). -/
def MessageType.fromJson : Option Json → Except String MessageType
  | some (.str s) =>
    if s = "pr" then .ok .PRICE
    else if s = "state_change" then .ok .STATE_CHANGE
    else if s = "heartbeat" then .ok .HEARTBEAT
    else if s = "ob" then .ok .ORDERBOOK
    else .error "Input should be a valid MessageType"
  | some _ => .error "Input should be a valid MessageType"
  | none => .error "Field required"

/-- The `BISTStockLiveData`: aliases `s`, `ch`, `p`, `d`; `populate_by_name`
is enabled. -/
structure BISTStockLiveData where
  symbol : String
  daily_percent_change : Rat
  close_price : Rat
  date : Int
deriving DecidableEq, Repr

def BISTStockLiveData.fromJson (j : Json) : Except String BISTStockLiveData :=
  match j with
  | .obj fields => do
    let symbol ← vStr (Json.lookupAliased fields "s" "symbol")
    let daily_percent_change ← vFloat (Json.lookupAliased fields "ch" "daily_percent_change")
    let close_price ← vFloat (Json.lookupAliased fields "p" "close_price")
    let date ← vInt (Json.lookupAliased fields "d" "date")
    .ok { symbol, daily_percent_change, close_price, date }
  | _ => .error "Input should be a valid dictionary"

/-- The `USStockLiveData`: aliases `s`, `p`, `d`; `populate_by_name` is
enabled. -/
structure USStockLiveData where
  symbol : String
  price : Rat
  date : Int
deriving DecidableEq, Repr

def USStockLiveData.fromJson (j : Json) : Except String USStockLiveData :=
  match j with
  | .obj fields => do
    let symbol ← vStr (Json.lookupAliased fields "s" "symbol")
    let price ← vFloat (Json.lookupAliased fields "p" "price")
    let date ← vInt (Json.lookupAliased fields "d" "date")
    .ok { symbol, price, date }
  | _ => .error "Input should be a valid dictionary"

/-- The `LevelSide` enum. -/
inductive LevelSide where
  | BID : LevelSide
  | ASK : LevelSide
deriving DecidableEq, Repr

def LevelSide.fromJson : Option Json → Except String LevelSide
  | some (.str s) =>
    if s = "bid" then .ok .BID
    else if s = "ask" then .ok .ASK
    else .error "Input should be a valid LevelSide"
  | some _ => .error "Input should be a valid LevelSide"
  | none => .error "Field required"

/-- The `OrderbookLevel`: aliases `level`, `side`, `price`, `size`; no
`populate_by_name`, so only the alias keys are accepted. -/
structure OrderbookLevel where
  id : Int
  side : LevelSide
  price : Rat
  size : Rat
deriving DecidableEq, Repr

def OrderbookLevel.fromJson (j : Json) : Except String OrderbookLevel :=
  match j with
  | .obj fields => do
    let id ← vInt (Json.getField fields "level")
    let side ← LevelSide.fromJson (Json.getField fields "side")
    let price ← vFloat (Json.getField fields "price")
    let size ← vFloat (Json.getField fields "size")
    .ok { id, side, price, size }
  | _ => .error "Input should be a valid dictionary"

/-- The `OrderbookDeletedLevel`: aliases `level`, `side`; no
`populate_by_name`. -/
structure OrderbookDeletedLevel where
  id : Int
  side : LevelSide
deriving DecidableEq, Repr

def OrderbookDeletedLevel.fromJson (j : Json) : Except String OrderbookDeletedLevel :=
  match j with
  | .obj fields => do
    let id ← vInt (Json.getField fields "level")
    let side ← LevelSide.fromJson (Json.getField fields "side")
    .ok { id, side }
  | _ => .error "Input should be a valid dictionary"

/-- The `BISTStockOrderBookData`: aliases `updated`, `deleted`, `s`; no
`populate_by_name`, so the symbol is accepted only under the key `s`. -/
structure BISTStockOrderBookData where
  updated : List OrderbookLevel
  deleted : List OrderbookDeletedLevel
  symbol : String
deriving DecidableEq, Repr

def BISTStockOrderBookData.fromJson (j : Json) : Except String BISTStockOrderBookData :=
  match j with
  | .obj fields => do
    let updated ← vList OrderbookLevel.fromJson (Json.getField fields "updated")
    let deleted ← vList OrderbookDeletedLevel.fromJson (Json.getField fields "deleted")
    let symbol ← vStr (Json.getField fields "s")
    .ok { updated, deleted, symbol }
  | _ => .error "Input should be a valid dictionary"

/-- The `BISTBidAskData`: `symbol` aliased `s`, `date` aliased `d`, `ask` and
`bid` by name; no `populate_by_name`. -/
structure BISTBidAskData where
  symbol : String
  date : Int
  ask : Rat
  bid : Rat
deriving DecidableEq, Repr

def BISTBidAskData.fromJson (j : Json) : Except String BISTBidAskData :=
  match j with
  | .obj fields => do
    let symbol ← vStr (Json.getField fields "s")
    let date ← vInt (Json.getField fields "d")
    let ask ← vFloat (Json.getField fields "ask")
    let bid ← vFloat (Json.getField fields "bid")
    .ok { symbol, date, ask, bid }
  | _ => .error "Input should be a valid dictionary"

/-- The `LiveMessageV2[BISTStockLiveData]`, the instantiation used by the TR
live and delayed price streams: plain fields `data`, `symbol`, `type`. -/
structure LiveMessageV2Bist where
  data : BISTStockLiveData
  symbol : String
  type : MessageType
deriving DecidableEq, Repr

def LiveMessageV2Bist.fromJson (j : Json) : Except String LiveMessageV2Bist :=
  match j with
  | .obj fields => do
    let data ←
      match Json.getField fields "data" with
      | some v => BISTStockLiveData.fromJson v
      | none => .error "Field required"
    let symbol ← vStr (Json.getField fields "symbol")
    let type ← MessageType.fromJson (Json.getField fields "type")
    .ok { data, symbol, type }
  | _ => .error "Input should be a valid dictionary"

/-! ## Streaming-Channel component (`laplace/live_price.py`)

`LivePriceStream` and `BidAskStream` are embedded as explicit state-passing
functions.  The background task (`_start_streaming` and
`_process_stream_lines`) is modelled as a pure function from the connection
outcome (HTTP status plus the SSE lines that arrive before the connection
ends, or a raised transport exception) to the sequence of Results it puts
on the queue and the final value of the closed flag. -/

/-- The `LivePriceType` enum. -/
inductive LivePriceType where
  | PRICE : LivePriceType
  | DELAYED_PRICE : LivePriceType
  | ORDER_BOOK : LivePriceType
deriving DecidableEq, Repr

/-- The closed set of payloads `_create_model_from_data` can return,
one per supported `(region, type)` combination. -/
inductive StreamPayload where
  | bistLive (m : LiveMessageV2Bist) : StreamPayload
  | usLive (d : USStockLiveData) : StreamPayload
  | orderBook (d : BISTStockOrderBookData) : StreamPayload
deriving DecidableEq, Repr

/-- The `LivePriceResult`: the `{data, error}` envelope. -/
structure LivePriceResult where
  data : Option StreamPayload := none
  error : Option String := none
deriving DecidableEq, Repr

def LivePriceResult.is_error (r : LivePriceResult) : Bool :=
  r.error.isSome

/-- The `LivePriceStream._create_model_from_data`: region/type dispatch to the
wire model, in the source's branch order.  The fall-through `ValueError`
("Unsupported region and type") is represented as an error, like any other
exception it is caught by the caller's handler. -/
def create_model_from_data (region : Region) (type : LivePriceType) (j : Json) :
    Except String StreamPayload :=
  if region = Region.TR ∧ type = LivePriceType.PRICE then
    (LiveMessageV2Bist.fromJson j).map StreamPayload.bistLive
  else if region = Region.TR ∧ type = LivePriceType.DELAYED_PRICE then
    (LiveMessageV2Bist.fromJson j).map StreamPayload.bistLive
  else if region = Region.US ∧ type = LivePriceType.PRICE then
    (USStockLiveData.fromJson j).map StreamPayload.usLive
  else if region = Region.TR ∧ type = LivePriceType.ORDER_BOOK then
    (BISTStockOrderBookData.fromJson j).map StreamPayload.orderBook
  else
    .error "Unsupported region and type"

/-- Python's character-based `str.startswith`, over the string's character
list (kernel-computable). -/
def strStartsWith (s pre : String) : Bool :=
  pre.data.isPrefixOf s.data

/-- Python's character-based slicing `s[n:]` (kernel-computable). -/
def strDrop (s : String) (n : Nat) : String :=
  String.mk (s.data.drop n)

/-- The per-line step of `_process_stream_lines`: `none` when the line does
not start with `data:` (the line is skipped), otherwise the outcome of
stripping the prefix, `json.loads`, and `_create_model_from_data`. -/
def process_line (region : Region) (type : LivePriceType) (line : String) :
    Option (Except String StreamPayload) :=
  if strStartsWith line "data:" then
    some (do
      let parsed ← jsonLoads (strDrop line 5)
      create_model_from_data region type parsed)
  else
    none

/-- One iteration of the `_process_stream_lines` loop body: a non-`data:`
line contributes nothing (`continue`); a decoded line enqueues one success
Result ahead of whatever the remaining iterations enqueue; a failed line
enqueues one error Result and discards the remaining iterations
(`break`). -/
def process_step (region : Region) (type : LivePriceType) (line : String)
    (restResults : List LivePriceResult) : List LivePriceResult :=
  match process_line region type line with
  | none => restResults
  | some (.ok payload) => { data := some payload } :: restResults
  | some (.error e) => [{ error := some ("Error processing data: " ++ e) }]

/-- Whether `_process_stream_lines` hits its error handler on this line. -/
def line_fails (region : Region) (type : LivePriceType) (line : String) : Bool :=
  match process_line region type line with
  | some (.error _) => true
  | _ => false

/-- The `_process_stream_lines`: read the lines in order, applying the loop
body to each. -/
def process_stream_lines (region : Region) (type : LivePriceType) :
    List String → List LivePriceResult
  | [] => []
  | line :: rest =>
    process_step region type line (process_stream_lines region type rest)

/-- The fate of the streaming GET opened by `_start_streaming`: a response
(status code, error body for non-200, and the SSE lines served before the
stream ends), or a raised `httpx.TimeoutException`/`httpx.ConnectError`,
or another raised exception. -/
inductive StreamConnection where
  | response (status_code : Nat) (body : String) (lines : List String) : StreamConnection
  | timeoutOrConnectError (e : String) : StreamConnection
  | otherError (e : String) : StreamConnection
deriving DecidableEq, Repr

/-- The `_start_streaming` for `LivePriceStream`: returns the Results enqueued
over the connection's lifetime and the closed flag, which the `finally`
block always leaves `true`. -/
def start_streaming (region : Region) (type : LivePriceType)
    (conn : StreamConnection) : List LivePriceResult × Bool :=
  match conn with
  | .response status_code body lines =>
    if status_code ≠ 200 then
      ([{ error := some ("Stream failed: " ++ toString status_code ++ " - " ++ body) }], true)
    else
      (process_stream_lines region type lines, true)
  | .timeoutOrConnectError e =>
    ([{ error := some ("Connection error: " ++ e) }], true)
  | .otherError e =>
    ([{ error := some ("Streaming error: " ++ e) }], true)

/-- The observable state of a `LivePriceStream` instance: `queue = none`
models an instance on which `subscribe` has never been called
(`self._queue is None`). -/
structure LivePriceStreamState where
  queue : Option (List LivePriceResult) := none
  is_closed : Bool := false
  symbols : List String := []
deriving DecidableEq, Repr

/-- The `LivePriceStream.__init__`. -/
def LivePriceStream.init : LivePriceStreamState := {}

/-- The `LivePriceStream.subscribe` followed by the background task running to
completion over the given connection: the queue is reset and filled with
the task's Results, and the task's `finally` sets the closed flag. -/
def LivePriceStream.subscribe (region : Region) (type : LivePriceType)
    (_s : LivePriceStreamState) (symbols : List String) (conn : StreamConnection) :
    LivePriceStreamState :=
  let (results, closed) := start_streaming region type conn
  { queue := some results, is_closed := closed, symbols := symbols }

/-- The `LivePriceStream.receive` under the cooperative schedule in which the
consumer pulls every queued item before observing the closed flag: raises
`RuntimeError` (the `.error` case) when `subscribe` was never called, and
otherwise yields exactly the enqueued Results. -/
def LivePriceStream.receive (s : LivePriceStreamState) :
    Except String (List LivePriceResult) :=
  match s.queue with
  | none => .error "Not subscribed. Call subscribe() first."
  | some items => .ok items

/-- The `",".join(symbols) if symbols else ""` from `_build_stream_url`. -/
def join_symbols (symbols : List String) : String :=
  if symbols.isEmpty then "" else String.intercalate "," symbols

/-- The endpoint path `_build_stream_url` appends to the base URL: the
source's if/elif chain appends nothing in the remaining case. -/
def stream_path (type : LivePriceType) (region : Region) : String :=
  if type = LivePriceType.PRICE ∧ region = Region.TR then "/v2/stock/price/live"
  else if type = LivePriceType.DELAYED_PRICE then "/v1/stock/price/delayed"
  else if type = LivePriceType.ORDER_BOOK then "/v1/stock/orderbook/live"
  else ""

/-- The `LivePriceStream._build_stream_url`, with the generated `uuid4` stream
id taken as a parameter. -/
def build_stream_url (base_url : String) (type : LivePriceType) (region : Region)
    (symbols : List String) (stream_id : String) : String :=
  let symbols_param := join_symbols symbols
  let url := base_url
  let url :=
    if type = LivePriceType.PRICE ∧ region = Region.TR then url ++ "/v2/stock/price/live"
    else if type = LivePriceType.DELAYED_PRICE then url ++ "/v1/stock/price/delayed"
    else if type = LivePriceType.ORDER_BOOK then url ++ "/v1/stock/orderbook/live"
    else url
  url ++ "?filter=" ++ symbols_param ++ "&region=" ++ region.value ++ "&stream=" ++ stream_id

/-- The `(region, type)` combinations `_create_model_from_data` supports
(every other combination raises `ValueError`). -/
def supported_combo (region : Region) (type : LivePriceType) : Bool :=
  (region = Region.TR ∧ type = LivePriceType.PRICE) ∨
  (region = Region.TR ∧ type = LivePriceType.DELAYED_PRICE) ∨
  (region = Region.US ∧ type = LivePriceType.PRICE) ∨
  (region = Region.TR ∧ type = LivePriceType.ORDER_BOOK)

/-- The `BidAskResult`: the `{data, error}` envelope of the bid/ask channel. -/
structure BidAskResult where
  data : Option BISTBidAskData := none
  error : Option String := none
deriving DecidableEq, Repr

def BidAskResult.is_error (r : BidAskResult) : Bool :=
  r.error.isSome

/-- The `BidAskStream._create_model_from_data`: unwrap a nested `d` object when
present, otherwise validate the object directly. -/
def bidask_create_model_from_data (j : Json) : Except String BISTBidAskData :=
  match j with
  | .obj fields =>
    match Json.getField fields "d" with
    | some (Json.obj inner) => BISTBidAskData.fromJson (.obj inner)
    | _ => BISTBidAskData.fromJson j
  | _ => BISTBidAskData.fromJson j

/-- The per-line step of `BidAskStream._process_stream_lines`. -/
def bidask_process_line (line : String) : Option (Except String BISTBidAskData) :=
  if strStartsWith line "data:" then
    some (do
      let parsed ← jsonLoads (strDrop line 5)
      bidask_create_model_from_data parsed)
  else
    none

/-- One iteration of the `BidAskStream._process_stream_lines` loop body. -/
def bidask_process_step (line : String) (restResults : List BidAskResult) :
    List BidAskResult :=
  match bidask_process_line line with
  | none => restResults
  | some (.ok payload) => { data := some payload } :: restResults
  | some (.error e) => [{ error := some ("Error processing bid/ask data: " ++ e) }]

/-- The `BidAskStream._process_stream_lines`: identical loop structure to the
live price variant. -/
def bidask_process_stream_lines : List String → List BidAskResult
  | [] => []
  | line :: rest => bidask_process_step line (bidask_process_stream_lines rest)

/-- The `BidAskStream._start_streaming`. -/
def bidask_start_streaming (conn : StreamConnection) : List BidAskResult × Bool :=
  match conn with
  | .response status_code body lines =>
    if status_code ≠ 200 then
      ([{ error := some ("Bid/Ask stream failed: " ++ toString status_code ++ " - " ++ body) }],
        true)
    else
      (bidask_process_stream_lines lines, true)
  | .timeoutOrConnectError e =>
    ([{ error := some ("Connection error: " ++ e) }], true)
  | .otherError e =>
    ([{ error := some ("Bid/Ask streaming error: " ++ e) }], true)

/-- The observable state of a `BidAskStream` instance. -/
structure BidAskStreamState where
  queue : Option (List BidAskResult) := none
  is_closed : Bool := false
  symbols : List String := []
deriving DecidableEq, Repr

/-- The `BidAskStream.__init__`. -/
def BidAskStream.init : BidAskStreamState := {}

/-- The `BidAskStream.subscribe` followed by the background task running to
completion. -/
def BidAskStream.subscribe (_s : BidAskStreamState) (symbols : List String)
    (conn : StreamConnection) : BidAskStreamState :=
  let (results, closed) := bidask_start_streaming conn
  { queue := some results, is_closed := closed, symbols := symbols }

/-- The `BidAskStream.receive`, as for `LivePriceStream.receive`. -/
def BidAskStream.receive (s : BidAskStreamState) :
    Except String (List BidAskResult) :=
  match s.queue with
  | none => .error "Not subscribed. Call subscribe() first."
  | some items => .ok items

/-- The `BidAskStream._build_stream_url`, stream id as a parameter. -/
def bidask_build_stream_url (base_url : String) (symbols : List String)
    (stream_id : String) : String :=
  base_url ++ "/v1/stock/price/bids?filter=" ++ join_symbols symbols ++
    "&region=tr&stream=" ++ stream_id

/-! ## Multiplexed Push-Client component (`laplace/websocket.py`)

`LivePriceWebSocketClient` is embedded as a state record plus one function
per method/callback.  Handlers are opaque Python callables; they are
represented by opaque identifiers (`Nat`), and an operation returns the
ordered list of `(handler, payload)` invocations it performs.  Outbound
wire messages are likewise returned as a list.  The
`run_coroutine_threadsafe` marshaling and the dedicated connection thread
are timing concerns collapsed by the sequential model: a callback's
marshalled body runs before the next modelled event. -/

/-- The `LivePriceFeed` enum. -/
inductive LivePriceFeed where
  | LIVE_BIST : LivePriceFeed
  | LIVE_US : LivePriceFeed
  | DELAYED_BIST : LivePriceFeed
  | DEPTH_BIST : LivePriceFeed
deriving DecidableEq, Repr

/-- The wire string of each `LivePriceFeed` member. -/
def LivePriceFeed.value : LivePriceFeed → String
  | .LIVE_BIST => "live_price_tr"
  | .LIVE_US => "live_price_us"
  | .DELAYED_BIST => "delayed_price_tr"
  | .DEPTH_BIST => "depth_tr"

/-- The `LivePriceFeed(raw_data.get("feed"))`: the enum constructor succeeds
only on a member's string value; anything else raises `ValueError`
(represented by `none`). -/
def LivePriceFeed.fromWire : Option Json → Option LivePriceFeed
  | some (.str s) =>
    if s = "live_price_tr" then some .LIVE_BIST
    else if s = "live_price_us" then some .LIVE_US
    else if s = "delayed_price_tr" then some .DELAYED_BIST
    else if s = "depth_tr" then some .DEPTH_BIST
    else none
  | _ => none

/-- The `WebSocketCloseReason` enum. -/
inductive WebSocketCloseReason where
  | NORMAL_CLOSURE : WebSocketCloseReason
  | CONNECTION_ERROR : WebSocketCloseReason
  | MAX_RECONNECT_EXCEEDED : WebSocketCloseReason
  | UNKNOWN : WebSocketCloseReason
deriving DecidableEq, Repr

/-- The `WebSocketErrorType` members used by the modelled paths. -/
inductive WebSocketErrorType where
  | MAX_RECONNECT_EXCEEDED : WebSocketErrorType
  | CONNECTION_ERROR : WebSocketErrorType
  | CLOSE_ERROR : WebSocketErrorType
  | WEBSOCKET_NOT_INITIALIZED : WebSocketErrorType
  | MESSAGE_PARSE_ERROR : WebSocketErrorType
  | WEBSOCKET_NOT_CONNECTED : WebSocketErrorType
  | WEBSOCKET_ERROR : WebSocketErrorType
  | UNKNOWN_ERROR : WebSocketErrorType
deriving DecidableEq, Repr

/-- The `WebsocketOptions` with the source's defaults. -/
structure WebsocketOptions where
  enable_logging : Bool := true
  reconnect_attempts : Nat := 5
  reconnect_delay : Nat := 5000
  max_reconnect_delay : Nat := 30000
deriving DecidableEq, Repr

/-- The payloads a data frame can dispatch (the values stored in
`_symbol_last_data` and passed to handlers). -/
inductive WsPayload where
  | bist (d : BISTStockLiveData) : WsPayload
  | us (d : USStockLiveData) : WsPayload
  | depth (d : BISTStockOrderBookData) : WsPayload
deriving DecidableEq, Repr

def WsPayload.symbol : WsPayload → String
  | .bist d => d.symbol
  | .us d => d.symbol
  | .depth d => d.symbol

/-- One entry of the `_subscriptions` dict:
`{"symbols": ..., "feed": ..., "handler": ...}`. -/
structure PushSubscription where
  symbols : List String
  feed : LivePriceFeed
  handler : Nat
deriving DecidableEq, Repr

/-- An outbound wire message sent by `_add_symbols`/`_remove_symbols`. -/
structure WireMessage where
  type : String
  symbols : List String
  feed : String
deriving DecidableEq, Repr

/-- The mutable state of a `LivePriceWebSocketClient`.  The
`_subscriptions` dict (int keys from a monotonic counter) and the
`_symbol_last_data` dict are insertion-ordered association lists, matching
Python dict iteration order. -/
structure WSClientState where
  feeds : List LivePriceFeed
  external_user_id : String
  options : WebsocketOptions := {}
  websocket : Bool := false
  subscription_counter : Nat := 0
  subscriptions : List (Nat × PushSubscription) := []
  symbol_last_data : List (String × WsPayload) := []
  is_closed : Bool := false
  closed_reason : Option WebSocketCloseReason := none
  has_loop : Bool := false
  reconnect_count : Nat := 0
deriving DecidableEq, Repr

/-- Python dict update: overwrite in place when the key exists, append
otherwise. -/
def dictSet (d : List (String × WsPayload)) (k : String) (v : WsPayload) :
    List (String × WsPayload) :=
  if d.any (fun p => p.1 = k) then
    d.map (fun p => if p.1 = k then (k, v) else p)
  else
    d ++ [(k, v)]

/-- Python `dict.get`. -/
def dictGet (d : List (String × WsPayload)) (k : String) : Option WsPayload :=
  d.foldl (fun acc p => if p.1 = k then some p.2 else acc) none

namespace LivePriceWebSocketClient

/-- The `__init__`. -/
def init (feeds : List LivePriceFeed) (external_user_id : String)
    (options : WebsocketOptions) : WSClientState :=
  { feeds, external_user_id, options }

/-- The `connect`: validates user id and feeds, stores the running loop, and
opens the socket on the connection thread (the control-plane URL fetch is
a network effect outside the model). -/
def connect (s : WSClientState) : Except String WSClientState :=
  if s.external_user_id = "" ∨ s.feeds = [] then
    .error "External user ID and feeds are required"
  else
    .ok { s with has_loop := true, websocket := true }

/-- The `_get_handlers_for_symbol`: every subscription whose symbol list
contains the symbol and whose feed matches, in dict insertion order. -/
def get_handlers_for_symbol (s : WSClientState) (symbol : String)
    (feed : LivePriceFeed) : List Nat :=
  s.subscriptions.filterMap fun p =>
    if symbol ∈ p.2.symbols ∧ p.2.feed = feed then some p.2.handler else none

/-- The `_add_symbols`: returns early when the list is empty or no socket
exists, otherwise sends one `subscribe` wire message. -/
def add_symbols (s : WSClientState) (symbols : List String)
    (feed : LivePriceFeed) : List WireMessage :=
  if symbols.isEmpty ∨ s.websocket = false then []
  else [{ type := "subscribe", symbols := symbols, feed := feed.value }]

/-- The `_remove_symbols`. -/
def remove_symbols (s : WSClientState) (symbols : List String)
    (feed : LivePriceFeed) : List WireMessage :=
  if symbols.isEmpty ∨ s.websocket = false then []
  else [{ type := "unsubscribe", symbols := symbols, feed := feed.value }]

/-- The `subscribe`: registers the subscription under a fresh id, then walks
the symbol list: a symbol whose handler count (after registration) is one
is scheduled for an add message; a symbol with more handlers gets the
cached last value replayed synchronously to the new handler when one
exists.  Returns the new state, the replay invocations in order, the
outbound messages, and the subscription id. -/
def subscribe (s : WSClientState) (symbols : List String)
    (feed : LivePriceFeed) (handler : Nat) :
    WSClientState × List (Nat × WsPayload) × List WireMessage × Nat :=
  let subscription_id := s.subscription_counter
  let s1 := { s with
    subscription_counter := subscription_id + 1,
    subscriptions :=
      s.subscriptions ++ [(subscription_id, { symbols, feed, handler })] }
  let step := fun (acc : List String × List (Nat × WsPayload)) (symbol : String) =>
    let symbol_handlers := get_handlers_for_symbol s1 symbol feed
    if symbol_handlers.length = 1 then
      (acc.1 ++ [symbol], acc.2)
    else if symbol_handlers.length > 1 then
      match dictGet s1.symbol_last_data symbol with
      | some last_data => (acc.1, acc.2 ++ [(handler, last_data)])
      | none => acc
    else
      acc
  let (symbols_to_add, replays) := symbols.foldl step ([], [])
  let outbound :=
    if ¬symbols_to_add.isEmpty ∧ s1.has_loop then add_symbols s1 symbols_to_add feed
    else []
  (s1, replays, outbound, subscription_id)

/-- The `unsubscribe` closure returned by `subscribe`, with its captured
`subscription_id`, `symbols` and `feed`. -/
def unsubscribe (s : WSClientState) (subscription_id : Nat)
    (symbols : List String) (feed : LivePriceFeed) :
    WSClientState × List WireMessage :=
  if s.subscriptions.any (fun p => p.1 = subscription_id) then
    let s1 := { s with
      subscriptions := s.subscriptions.filter (fun p => p.1 ≠ subscription_id) }
    let symbols_for_remove :=
      symbols.filter (fun symbol => get_handlers_for_symbol s1 symbol feed = [])
    let outbound :=
      if ¬symbols_for_remove.isEmpty ∧ s1.has_loop then
        remove_symbols s1 symbols_for_remove feed
      else []
    (s1, outbound)
  else
    (s, [])

/-- The payload constructed by `_handle_message`'s data branch for a given
feed: keyword construction against the pydantic models, `None` for a
missing key failing validation.  (For `DEPTH_BIST` the source passes
`symbol=`, but `BISTStockOrderBookData` only accepts its alias `s`, so
that construction always fails validation and the frame is swallowed.) -/
def build_frame_payload (feed : LivePriceFeed) (fields : List (String × Json)) :
    Option WsPayload :=
  if feed = .DELAYED_BIST ∨ feed = .LIVE_BIST then
    (BISTStockLiveData.fromJson (.obj
      [("symbol", (Json.getField fields "symbol").getD .null),
        ("close_price", (Json.getField fields "cl").getD .null),
        ("daily_percent_change", (Json.getField fields "c").getD .null),
        ("date", (Json.getField fields "d").getD .null)])).toOption.map .bist
  else if feed = .LIVE_US then
    (USStockLiveData.fromJson (.obj
      [("symbol", (Json.getField fields "s").getD .null),
        ("price", (Json.getField fields "p").getD .null),
        ("date", (Json.getField fields "t").getD .null)])).toOption.map .us
  else
    (BISTStockOrderBookData.fromJson (.obj
      [("symbol", (Json.getField fields "s").getD .null),
        ("updated", (Json.getField fields "updated").getD .null),
        ("deleted", (Json.getField fields "deleted").getD .null)])).toOption.map .depth

/-- Python truthiness of the `message` payload (`if not message_data`). -/
def jsonTruthy : Json → Bool
  | .null => false
  | .bool b => b
  | .int n => n ≠ 0
  | .num q => q ≠ 0
  | .str s => s ≠ ""
  | .arr xs => ¬xs.isEmpty
  | .obj fields => ¬fields.isEmpty

/-- The `_handle_message` on an already-parsed frame: feed lookup, type
dispatch, payload construction, cache write, then handler fan-out.  Every
exception path (bad JSON shape, unknown feed, empty message, failed
validation) is caught and logged by the source, leaving the state
unchanged and dispatching nothing. -/
def handle_raw (s : WSClientState) (raw : Json) :
    WSClientState × List (Nat × WsPayload) :=
  let rawGet := fun (key : String) =>
    match raw with
    | .obj fields => Json.getField fields key
    | _ => none
  let message_type_is_data :=
    match rawGet "type" with
    | some (.str t) => t == "data"
    | _ => false
  match LivePriceFeed.fromWire (rawGet "feed") with
  | none => (s, [])
  | some feed =>
    if message_type_is_data then
      match rawGet "message" with
      | some md =>
        if jsonTruthy md then
          match md with
          | .obj fields =>
            match build_frame_payload feed fields with
            | some price_data =>
              if price_data.symbol ≠ "" then
                let s1 := { s with
                  symbol_last_data :=
                    dictSet s.symbol_last_data price_data.symbol price_data }
                let handlers := get_handlers_for_symbol s1 price_data.symbol feed
                (s1, handlers.map fun h => (h, price_data))
              else
                (s, [])
            | none => (s, [])
          | _ => (s, [])
        else
          (s, [])
      | none => (s, [])
    else
      (s, [])

/-- The `_handle_message` on the raw text frame (`json.loads` first; a parse
failure is logged and swallowed). -/
def handle_message (s : WSClientState) (message : String) :
    WSClientState × List (Nat × WsPayload) :=
  match jsonLoads message with
  | .error _ => (s, [])
  | .ok raw => handle_raw s raw

/-- The `_on_close` for a transport close not initiated by `close()` is guarded
by the closed flag: increment the reconnect counter and, once it reaches
the configured maximum, record `MAX_RECONNECT_EXCEEDED`. -/
def on_close (s : WSClientState) : WSClientState :=
  if s.is_closed = false then
    let c := s.reconnect_count + 1
    if c ≥ s.options.reconnect_attempts then
      { s with
        reconnect_count := c
        closed_reason := some .MAX_RECONNECT_EXCEEDED }
    else
      { s with reconnect_count := c }
  else
    s

/-- The `_resubscribe_all`: group the symbols of every registered subscription
by feed (insertion order, de-duplicated), and send one add message per
feed. -/
def resubscribe_all (s : WSClientState) : List WireMessage :=
  let addSym := fun (acc : List (LivePriceFeed × List String))
      (feed : LivePriceFeed) (symbol : String) =>
    acc.map fun p =>
      if p.1 = feed ∧ symbol ∉ p.2 then (p.1, p.2 ++ [symbol]) else p
  let ensureFeed := fun (acc : List (LivePriceFeed × List String))
      (feed : LivePriceFeed) =>
    if acc.any (fun p => p.1 = feed) then acc else acc ++ [(feed, [])]
  let symbols_by_feed :=
    s.subscriptions.foldl
      (fun acc p =>
        p.2.symbols.foldl (fun acc2 sym => addSym acc2 p.2.feed sym)
          (ensureFeed acc p.2.feed))
      []
  symbols_by_feed.flatMap fun p => add_symbols s p.2 p.1

/-- The `_on_open`: unconditionally reset the reconnect counter, then replay
every registered subscription (marshalled onto the loop when one is
stored). -/
def on_open (s : WSClientState) : WSClientState × List WireMessage :=
  let s1 := { s with reconnect_count := 0 }
  if s1.has_loop then (s1, resubscribe_all s1) else (s1, [])

/-- The `close`, with a flag saying whether closing the underlying socket (or
joining the thread) raises: the try-body clears the subscription table,
records `NORMAL_CLOSURE`, marks the client closed and closes the socket;
the `finally` clears the socket reference and the subscription table on
both paths; an exception is re-raised as a `CLOSE_ERROR`. -/
def close (s : WSClientState) (socket_close_raises : Bool) :
    WSClientState × Option WebSocketErrorType :=
  let raised := s.websocket ∧ socket_close_raises
  let s1 := { s with
    subscriptions := [],
    closed_reason := some .NORMAL_CLOSURE,
    is_closed := true,
    websocket := false }
  (s1, if raised then some .CLOSE_ERROR else none)

/-- The `is_connection_closed`. -/
def is_connection_closed (s : WSClientState) : Bool :=
  s.is_closed

/-- The `get_close_reason`. -/
def get_close_reason (s : WSClientState) : Option WebSocketCloseReason :=
  s.closed_reason

end LivePriceWebSocketClient
deriving instance DecidableEq for Except

/-! ## Helper lemmas -/

/-- Every Result produced by the line-processing loop is either a pure
success (data set, error absent) or a pure error (data absent, error set). -/
theorem process_stream_lines_shape (region : Region) (type : LivePriceType)
    (lines : List String) :
    ∀ r ∈ process_stream_lines region type lines,
      (r.data.isSome ∧ r.error = none) ∨ (r.data = none ∧ r.error.isSome) := by
  induction lines with
  | nil =>
    intro r hr
    rw [process_stream_lines] at hr
    exact absurd hr (List.not_mem_nil r)
  | cons line rest ih =>
    intro r hr
    rw [process_stream_lines] at hr
    unfold process_step at hr
    split at hr
    · exact ih r hr
    · rcases List.mem_cons.mp hr with h | h
      · subst h
        left
        simp
      · exact ih r h
    · rw [List.mem_singleton] at hr
      subst hr
      right
      simp

/-- Bid/ask analogue of `process_stream_lines_shape`. -/
theorem bidask_process_stream_lines_shape (lines : List String) :
    ∀ r ∈ bidask_process_stream_lines lines,
      (r.data.isSome ∧ r.error = none) ∨ (r.data = none ∧ r.error.isSome) := by
  induction lines with
  | nil =>
    intro r hr
    rw [bidask_process_stream_lines] at hr
    exact absurd hr (List.not_mem_nil r)
  | cons line rest ih =>
    intro r hr
    rw [bidask_process_stream_lines] at hr
    unfold bidask_process_step at hr
    split at hr
    · exact ih r hr
    · rcases List.mem_cons.mp hr with h | h
      · subst h
        left
        simp
      · exact ih r h
    · rw [List.mem_singleton] at hr
      subst hr
      right
      simp

/-- Associativity of string concatenation (for regrouping URL pieces). -/
theorem str_append_assoc (a b c : String) : (a ++ b) ++ c = a ++ (b ++ c) := by
  cases a with
  | mk da =>
    cases b with
    | mk db =>
      cases c with
      | mk dc => exact congrArg String.mk (List.append_assoc da db dc)

/-! ## Claims -/

/-- Claim C1: when decoding or mapping of a single `data:` line fails, the
background task enqueues exactly one error Result and stops processing
further lines of that connection — the enqueued sequence is the successes
of the earlier lines followed by the one error Result, independent of all
lines after the failing one — and `receive()` on the resulting channel
state yields exactly that sequence, so no Results follow the error Result
until `subscribe` is called again. -/
theorem stream_line_error_is_fatal (region : Region) (type : LivePriceType)
    (s : LivePriceStreamState) (symbols : List String)
    (pre post : List String) (bad e : String)
    (hbad : process_line region type bad = some (.error e))
    (hpre : ∀ l ∈ pre, line_fails region type l = false) :
    process_stream_lines region type (pre ++ bad :: post)
      = process_stream_lines region type pre
        ++ [{ data := none, error := some ("Error processing data: " ++ e) }]
    ∧ (∀ r ∈ process_stream_lines region type pre, r.error = none)
    ∧ LivePriceStream.receive
        (LivePriceStream.subscribe region type s symbols
          (.response 200 "" (pre ++ bad :: post)))
      = .ok (process_stream_lines region type pre
          ++ [{ data := none, error := some ("Error processing data: " ++ e) }]) := by
  have key : process_stream_lines region type (pre ++ bad :: post)
      = process_stream_lines region type pre
        ++ [{ data := none, error := some ("Error processing data: " ++ e) }]
      ∧ ∀ r ∈ process_stream_lines region type pre, r.error = none := by
    induction pre with
    | nil =>
      refine ⟨?_, ?_⟩
      · rw [List.nil_append, process_stream_lines, process_stream_lines]
        unfold process_step
        rw [hbad]
        rfl
      · intro r hr
        rw [process_stream_lines] at hr
        exact absurd hr (List.not_mem_nil r)
    | cons l rest ih =>
      have hl : ∀ e', process_line region type l ≠ some (.error e') := by
        intro e' heq
        have hlf : line_fails region type l = false := hpre l (List.mem_cons_self l rest)
        unfold line_fails at hlf
        rw [heq] at hlf
        simp at hlf
      obtain ⟨ih1, ih2⟩ := ih fun l' hl' => hpre l' (List.mem_cons_of_mem _ hl')
      have step_eq : ∀ tail, process_stream_lines region type (l :: tail)
          = process_step region type l (process_stream_lines region type tail) := by
        intro tail
        rw [process_stream_lines]
      refine ⟨?_, ?_⟩
      · rw [List.cons_append, step_eq, step_eq, ih1]
        unfold process_step
        cases hpl : process_line region type l with
        | none => rfl
        | some res =>
          cases res with
          | ok payload => rfl
          | error e' => exact absurd hpl (hl e')
      · intro r hr
        rw [step_eq] at hr
        unfold process_step at hr
        cases hpl : process_line region type l with
        | none =>
          rw [hpl] at hr
          exact ih2 r hr
        | some res =>
          cases res with
          | ok payload =>
            rw [hpl] at hr
            rcases List.mem_cons.mp hr with h | h
            · subst h
              rfl
            · exact ih2 r h
          | error e' => exact absurd hpl (hl e')
  refine ⟨key.1, key.2, ?_⟩
  rw [LivePriceStream.receive, LivePriceStream.subscribe]
  simp only [start_streaming]
  rw [key.1]
  simp

theorem stream_line_error_is_fatal_witness :
    process_stream_lines Region.US LivePriceType.PRICE
        (["retry: 1000", "data:\x7b\"s\":\"A\",\"p\":1,\"d\":2\x7d"] ++
          "data:notjson" :: ["data:\x7b\"s\":\"B\",\"p\":3,\"d\":4\x7d"])
      = process_stream_lines Region.US LivePriceType.PRICE
          ["retry: 1000", "data:\x7b\"s\":\"A\",\"p\":1,\"d\":2\x7d"]
        ++ [{ data := none, error := some ("Error processing data: " ++ "Expecting value") }]
    ∧ (∀ r ∈ process_stream_lines Region.US LivePriceType.PRICE
          ["retry: 1000", "data:\x7b\"s\":\"A\",\"p\":1,\"d\":2\x7d"], r.error = none)
    ∧ LivePriceStream.receive
        (LivePriceStream.subscribe Region.US LivePriceType.PRICE LivePriceStream.init ["A"]
          (.response 200 ""
            (["retry: 1000", "data:\x7b\"s\":\"A\",\"p\":1,\"d\":2\x7d"] ++
              "data:notjson" :: ["data:\x7b\"s\":\"B\",\"p\":3,\"d\":4\x7d"])))
      = .ok (process_stream_lines Region.US LivePriceType.PRICE
            ["retry: 1000", "data:\x7b\"s\":\"A\",\"p\":1,\"d\":2\x7d"]
          ++ [{ data := none, error := some ("Error processing data: " ++ "Expecting value") }]) :=
  stream_line_error_is_fatal Region.US LivePriceType.PRICE LivePriceStream.init ["A"]
    ["retry: 1000", "data:\x7b\"s\":\"A\",\"p\":1,\"d\":2\x7d"]
    ["data:\x7b\"s\":\"B\",\"p\":3,\"d\":4\x7d"] "data:notjson" "Expecting value"
    (by decide) (by decide)

/-- Claim C3 counterexample: feeding the claim's exact stream line, which
carries the timestamp under the key `t`, makes pydantic validation of
`USStockLiveData` fail (its required `date` field is populated from `d` or
`date`, never `t`), so the single Result the channel yields is an error
Result with no data — not a Result with `data.symbol = "AAPL"`. -/
theorem us_price_line_with_t_key_yields_error :
    (start_streaming Region.US LivePriceType.PRICE
        (.response 200 "" ["data:\x7b\"s\":\"AAPL\",\"p\":150.75,\"t\":1234567890\x7d"])).1
      = [{ data := none, error := some "Error processing data: Field required" }] := by
  decide

/-- Claim C3 (amended): with the timestamp under the model's alias `d`
(the stream line `data:\x7b"s":"AAPL","p":150.75,"d":1234567890\x7d`),
subscribing the US live-price Streaming-Channel to `["AAPL"]` and feeding
that single line makes `receive()` yield exactly one Result whose
`data.symbol` is `"AAPL"` and whose `data.price` is `150.75`, after which
the stream ends and the closed flag is true. -/
theorem us_price_single_line_end_to_end :
    LivePriceStream.receive
        (LivePriceStream.subscribe Region.US LivePriceType.PRICE
          LivePriceStream.init ["AAPL"]
          (.response 200 "" ["data:\x7b\"s\":\"AAPL\",\"p\":150.75,\"d\":1234567890\x7d"]))
      = .ok [{ data := some (.usLive
                { symbol := "AAPL", price := 150.75, date := 1234567890 }),
               error := none }]
    ∧ (LivePriceStream.subscribe Region.US LivePriceType.PRICE
        LivePriceStream.init ["AAPL"]
        (.response 200 "" ["data:\x7b\"s\":\"AAPL\",\"p\":150.75,\"d\":1234567890\x7d"])).is_closed
      = true := by
  have h : (150.75 : Rat) = mkRat 15075 100 := by
    rw [Rat.mkRat_eq_div]
    norm_num
  constructor
  · rw [h]
    decide
  · decide

/-- Claim C4: every Result envelope a Streaming-Channel ever enqueues —
for any connection outcome of either the live-price channel or the
bid/ask channel — has at most one of `data` and `error` populated, never
both. -/
theorem result_envelope_mutually_exclusive (region : Region)
    (type : LivePriceType) (conn bconn : StreamConnection) :
    (∀ r ∈ (start_streaming region type conn).1,
      ¬(r.data.isSome ∧ r.error.isSome)) ∧
    (∀ r ∈ (bidask_start_streaming bconn).1,
      ¬(r.data.isSome ∧ r.error.isSome)) := by
  constructor
  · intro r hr
    cases conn with
    | response status_code body lines =>
      rw [start_streaming] at hr
      by_cases h200 : status_code = 200
      · rw [if_neg (by simp [h200])] at hr
        rcases process_stream_lines_shape region type lines r hr with ⟨_, h2⟩ | ⟨h1, _⟩
        · simp [h2]
        · simp [h1]
      · rw [if_pos (by simp [h200]), List.mem_singleton] at hr
        subst hr
        simp
    | timeoutOrConnectError e =>
      rw [start_streaming, List.mem_singleton] at hr
      subst hr
      simp
    | otherError e =>
      rw [start_streaming, List.mem_singleton] at hr
      subst hr
      simp
  · intro r hr
    cases bconn with
    | response status_code body lines =>
      rw [bidask_start_streaming] at hr
      by_cases h200 : status_code = 200
      · rw [if_neg (by simp [h200])] at hr
        rcases bidask_process_stream_lines_shape lines r hr with ⟨_, h2⟩ | ⟨h1, _⟩
        · simp [h2]
        · simp [h1]
      · rw [if_pos (by simp [h200]), List.mem_singleton] at hr
        subst hr
        simp
    | timeoutOrConnectError e =>
      rw [bidask_start_streaming, List.mem_singleton] at hr
      subst hr
      simp
    | otherError e =>
      rw [bidask_start_streaming, List.mem_singleton] at hr
      subst hr
      simp

theorem result_envelope_mutually_exclusive_witness :
    ¬((({ data := none, error := some "Connection error: boom" } : LivePriceResult)).data.isSome
      ∧ (({ data := none, error := some "Connection error: boom" } : LivePriceResult)).error.isSome) :=
  (result_envelope_mutually_exclusive Region.TR LivePriceType.PRICE
      (.timeoutOrConnectError "boom") (.timeoutOrConnectError "boom")).1
    { data := none, error := some "Connection error: boom" } (by decide)

/-- Claim C5 counterexample: `(live price, US)` is a supported combination
(`_create_model_from_data` maps it, and `get_live_price_for_us` constructs
it), yet `_build_stream_url`'s if/elif chain has no branch for it, so the
appended endpoint path is empty and the query string is attached directly
to the base URL. -/
theorem us_live_price_url_has_no_path :
    supported_combo Region.US LivePriceType.PRICE = true
    ∧ stream_path LivePriceType.PRICE Region.US = ""
    ∧ build_stream_url "https://api" LivePriceType.PRICE Region.US ["AAPL"] "sid"
      = "https://api?filter=AAPL&region=us&stream=sid" := by
  refine ⟨by decide, by decide, by decide⟩

/-- Claim C5 (amended): for every supported `(feed-kind, region)`
combination except US live price, and for every symbol list, the
Streaming-Channel builds its request URL as the base URL plus a non-empty
endpoint path determined by feed-kind and region (the v2 path for TR live
price, distinct v1 paths for delayed price, order book, and bid/ask),
followed by the query parameters `filter` (comma-joined symbols, empty
string for no symbols), `region`, and the stream id generated for that
connection attempt; for US live price the code appends no endpoint path at
all. -/
theorem stream_url_structure (base_url stream_id : String)
    (symbols : List String) (region : Region) (type : LivePriceType)
    (hsup : supported_combo region type = true)
    (hnus : ¬(type = LivePriceType.PRICE ∧ region = Region.US)) :
    stream_path type region ≠ ""
    ∧ build_stream_url base_url type region symbols stream_id
      = base_url ++ stream_path type region ++ "?filter=" ++ join_symbols symbols
        ++ "&region=" ++ region.value ++ "&stream=" ++ stream_id
    ∧ stream_path LivePriceType.PRICE Region.TR = "/v2/stock/price/live"
    ∧ stream_path LivePriceType.DELAYED_PRICE region = "/v1/stock/price/delayed"
    ∧ stream_path LivePriceType.ORDER_BOOK region = "/v1/stock/orderbook/live"
    ∧ bidask_build_stream_url base_url symbols stream_id
      = base_url ++ "/v1/stock/price/bids" ++ "?filter=" ++ join_symbols symbols
        ++ "&region=tr&stream=" ++ stream_id := by
  cases region with
  | TR =>
    cases type with
    | PRICE =>
      exact ⟨by decide, rfl, rfl, rfl, rfl,
        by rw [str_append_assoc base_url "/v1/stock/price/bids" "?filter="]; rfl⟩
    | DELAYED_PRICE =>
      exact ⟨by decide, rfl, rfl, rfl, rfl,
        by rw [str_append_assoc base_url "/v1/stock/price/bids" "?filter="]; rfl⟩
    | ORDER_BOOK =>
      exact ⟨by decide, rfl, rfl, rfl, rfl,
        by rw [str_append_assoc base_url "/v1/stock/price/bids" "?filter="]; rfl⟩
  | US =>
    cases type with
    | PRICE => exact absurd ⟨rfl, rfl⟩ hnus
    | DELAYED_PRICE => exact absurd hsup (by decide)
    | ORDER_BOOK => exact absurd hsup (by decide)

theorem stream_url_structure_witness :
    stream_path LivePriceType.PRICE Region.TR ≠ ""
    ∧ build_stream_url "https://api" LivePriceType.PRICE Region.TR ["GARAN", "AKBNK"] "sid"
      = "https://api" ++ stream_path LivePriceType.PRICE Region.TR ++ "?filter="
        ++ join_symbols ["GARAN", "AKBNK"] ++ "&region=" ++ Region.TR.value
        ++ "&stream=" ++ "sid"
    ∧ stream_path LivePriceType.PRICE Region.TR = "/v2/stock/price/live"
    ∧ stream_path LivePriceType.DELAYED_PRICE Region.TR = "/v1/stock/price/delayed"
    ∧ stream_path LivePriceType.ORDER_BOOK Region.TR = "/v1/stock/orderbook/live"
    ∧ bidask_build_stream_url "https://api" ["GARAN", "AKBNK"] "sid"
      = "https://api" ++ "/v1/stock/price/bids" ++ "?filter="
        ++ join_symbols ["GARAN", "AKBNK"] ++ "&region=tr&stream=" ++ "sid" :=
  stream_url_structure "https://api" "sid" ["GARAN", "AKBNK"] Region.TR
    LivePriceType.PRICE (by decide) (by decide)

/-- Claim C7: for every well-formed BIST price JSON object using the short
alias fields `s`, `ch`, `p`, `d` (a string symbol, float percent change and
close price, integer date), the validated `BISTStockLiveData` payload's
canonical fields equal the corresponding aliased input values exactly;
an integer-valued price field is likewise preserved exactly under the
int-to-float coercion. -/
theorem bist_alias_fields_round_trip (s : String) (ch p : Rat) (chi pi d : Int) :
    BISTStockLiveData.fromJson
        (.obj [("s", .str s), ("ch", .num ch), ("p", .num p), ("d", .int d)])
      = .ok { symbol := s, daily_percent_change := ch, close_price := p, date := d }
    ∧ BISTStockLiveData.fromJson
        (.obj [("s", .str s), ("ch", .int chi), ("p", .int pi), ("d", .int d)])
      = .ok { symbol := s, daily_percent_change := (chi : Rat),
              close_price := (pi : Rat), date := d } := by
  constructor
  · rfl
  · rfl

/-- Claim C10: calling `receive()` on a Streaming-Channel on which
`subscribe` has never been called (the freshly constructed state of either
`LivePriceStream` or `BidAskStream`, whose queue is still `None`) raises
`RuntimeError` synchronously instead of yielding any Result. -/
theorem receive_without_subscribe_raises :
    LivePriceStream.receive LivePriceStream.init
      = .error "Not subscribed. Call subscribe() first."
    ∧ BidAskStream.receive BidAskStream.init
      = .error "Not subscribed. Call subscribe() first." :=
  ⟨rfl, rfl⟩

/-- The `_on_close` never touches the closed flag or the options. -/
theorem on_close_preserves (s : WSClientState) :
    (LivePriceWebSocketClient.on_close s).is_closed = s.is_closed
    ∧ (LivePriceWebSocketClient.on_close s).options = s.options := by
  unfold LivePriceWebSocketClient.on_close
  split
  · dsimp only
    split
    · exact ⟨rfl, rfl⟩
    · exact ⟨rfl, rfl⟩
  · exact ⟨rfl, rfl⟩

/-- While the client is not closed, `_on_close` increments the reconnect
counter. -/
theorem on_close_count (s : WSClientState) (h : s.is_closed = false) :
    (LivePriceWebSocketClient.on_close s).reconnect_count = s.reconnect_count + 1 := by
  unfold LivePriceWebSocketClient.on_close
  rw [if_pos h]
  dsimp only
  split
  · rfl
  · rfl

/-- While the client is not closed, iterating `_on_close` adds the number
of close events to the reconnect counter and preserves flag and options. -/
theorem on_close_iterate (n : Nat) (s : WSClientState) (h : s.is_closed = false) :
    (LivePriceWebSocketClient.on_close^[n] s).reconnect_count = s.reconnect_count + n
    ∧ (LivePriceWebSocketClient.on_close^[n] s).is_closed = false
    ∧ (LivePriceWebSocketClient.on_close^[n] s).options = s.options := by
  induction n generalizing s with
  | zero =>
    simp [h]
  | succ m ih =>
    rw [Function.iterate_succ_apply]
    have hcl : (LivePriceWebSocketClient.on_close s).is_closed = false := by
      rw [(on_close_preserves s).1]
      exact h
    obtain ⟨hc, hcl2, hop⟩ := ih (LivePriceWebSocketClient.on_close s) hcl
    refine ⟨?_, hcl2, by rw [hop, (on_close_preserves s).2]⟩
    rw [hc, on_close_count s h]
    omega

/-- While the client is not closed and the incremented counter reaches the
configured maximum, `_on_close` records `MAX_RECONNECT_EXCEEDED`. -/
theorem on_close_reason (s : WSClientState) (h : s.is_closed = false)
    (hmax : s.options.reconnect_attempts ≤ s.reconnect_count + 1) :
    (LivePriceWebSocketClient.on_close s).closed_reason
      = some WebSocketCloseReason.MAX_RECONNECT_EXCEEDED := by
  unfold LivePriceWebSocketClient.on_close
  rw [if_pos h, if_pos hmax]

/-- The `_on_open` unconditionally resets the reconnect counter. -/
theorem on_open_resets_count (s : WSClientState) :
    ((LivePriceWebSocketClient.on_open s).1).reconnect_count = 0 := by
  unfold LivePriceWebSocketClient.on_open
  dsimp only
  split
  · rfl
  · rfl

/-- Claim C2 counterexample: with `reconnect_attempts = 2`, two unsolicited
transport closes drive the reconnect counter to 2 and set the close reason
to `MAX_RECONNECT_EXCEEDED` — but a later transport reopen event resets
the reconnect counter to 0, contradicting the claim that reopen events do
not reset the counter. -/
theorem reopen_resets_reconnect_counter :
    (LivePriceWebSocketClient.on_close
        (LivePriceWebSocketClient.on_close
          (LivePriceWebSocketClient.init [LivePriceFeed.LIVE_US] "user-1"
            { reconnect_attempts := 2 }))).closed_reason
      = some WebSocketCloseReason.MAX_RECONNECT_EXCEEDED
    ∧ (LivePriceWebSocketClient.on_close
        (LivePriceWebSocketClient.on_close
          (LivePriceWebSocketClient.init [LivePriceFeed.LIVE_US] "user-1"
            { reconnect_attempts := 2 }))).reconnect_count = 2
    ∧ ((LivePriceWebSocketClient.on_open
        (LivePriceWebSocketClient.on_close
          (LivePriceWebSocketClient.on_close
            (LivePriceWebSocketClient.init [LivePriceFeed.LIVE_US] "user-1"
              { reconnect_attempts := 2 })))).1).reconnect_count = 0 := by
  refine ⟨by decide, by decide, by decide⟩

/-- Claim C2 (amended): after N consecutive unsolicited transport close
events with N at least the configured `reconnect_attempts` (the client
never having been closed by `close()`), the close reason is
`MAX_RECONNECT_EXCEEDED` and the reconnect counter equals N; the `_on_close`
handler itself initiates no reconnection (it only counts and logs, leaving
retries to the transport); however, a later transport reopen event DOES
reset the reconnect counter to zero, unconditionally. -/
theorem max_reconnect_exceeded_after_n_closes (s : WSClientState) (N : Nat)
    (hclosed : s.is_closed = false) (hcount : s.reconnect_count = 0)
    (hN : 1 ≤ N) (hmax : s.options.reconnect_attempts ≤ N) :
    (LivePriceWebSocketClient.on_close^[N] s).closed_reason
      = some WebSocketCloseReason.MAX_RECONNECT_EXCEEDED
    ∧ (LivePriceWebSocketClient.on_close^[N] s).reconnect_count = N
    ∧ ((LivePriceWebSocketClient.on_open
        (LivePriceWebSocketClient.on_close^[N] s)).1).reconnect_count = 0 := by
  obtain ⟨m, rfl⟩ : ∃ m, N = m + 1 := ⟨N - 1, by omega⟩
  rw [Function.iterate_succ_apply']
  obtain ⟨hc, hcl, hop⟩ := on_close_iterate m s hclosed
  refine ⟨?_, ?_, on_open_resets_count _⟩
  · apply on_close_reason _ hcl
    rw [hc, hcount, hop]
    omega
  · rw [on_close_count _ hcl, hc, hcount]
    omega

theorem max_reconnect_exceeded_after_n_closes_witness :
    (LivePriceWebSocketClient.on_close^[3]
        (LivePriceWebSocketClient.init [LivePriceFeed.LIVE_BIST] "user-2"
          { reconnect_attempts := 3 })).closed_reason
      = some WebSocketCloseReason.MAX_RECONNECT_EXCEEDED
    ∧ (LivePriceWebSocketClient.on_close^[3]
        (LivePriceWebSocketClient.init [LivePriceFeed.LIVE_BIST] "user-2"
          { reconnect_attempts := 3 })).reconnect_count = 3
    ∧ ((LivePriceWebSocketClient.on_open
        (LivePriceWebSocketClient.on_close^[3]
          (LivePriceWebSocketClient.init [LivePriceFeed.LIVE_BIST] "user-2"
            { reconnect_attempts := 3 }))).1).reconnect_count = 0 :=
  max_reconnect_exceeded_after_n_closes
    (LivePriceWebSocketClient.init [LivePriceFeed.LIVE_BIST] "user-2"
      { reconnect_attempts := 3 }) 3
    (by decide) (by decide) (by decide) (by decide)

/-- Binding a successful `Except` is application (for reducing the
validators' do-blocks). -/
theorem except_ok_bind {ε α β : Type} (a : α) (f : α → Except ε β) :
    ((Except.ok a : Except ε α) >>= f) = f a := rfl

/-- Claim C6: with two handlers registered through `subscribe` for the same
`(symbol, feedKind)` — here two PushSubscriptions for `symbol` on the
US live price feed — dispatching one inbound data frame carrying that
symbol and feed invokes each of the two handlers exactly once, in
registration order: the invocation list is precisely
`[(handler1, payload), (handler2, payload)]`. -/
theorem two_handlers_both_invoked_in_registration_order
    (feeds : List LivePriceFeed) (euid sym : String) (opts : WebsocketOptions)
    (h1 h2 : Nat) (p : Rat) (t : Int) (hsym : sym ≠ "") :
    (LivePriceWebSocketClient.handle_raw
        ((LivePriceWebSocketClient.subscribe
            ((LivePriceWebSocketClient.subscribe
                (LivePriceWebSocketClient.init feeds euid opts) [sym]
                LivePriceFeed.LIVE_US h1).1)
            [sym] LivePriceFeed.LIVE_US h2).1)
        (.obj [("type", .str "data"), ("feed", .str "live_price_us"),
          ("message", .obj [("s", .str sym), ("p", .num p), ("t", .int t)])])).2
      = [(h1, .us { symbol := sym, price := p, date := t }),
         (h2, .us { symbol := sym, price := p, date := t })] := by
  have hs2 : ((LivePriceWebSocketClient.subscribe
      ((LivePriceWebSocketClient.subscribe
          (LivePriceWebSocketClient.init feeds euid opts) [sym]
          LivePriceFeed.LIVE_US h1).1)
      [sym] LivePriceFeed.LIVE_US h2).1)
    = { feeds := feeds, external_user_id := euid, options := opts,
        subscription_counter := 2,
        subscriptions := [(0, { symbols := [sym], feed := .LIVE_US, handler := h1 }),
          (1, { symbols := [sym], feed := .LIVE_US, handler := h2 })] } := rfl
  rw [hs2]
  simp [LivePriceWebSocketClient.handle_raw, Json.getField,
    LivePriceFeed.fromWire, LivePriceWebSocketClient.jsonTruthy,
    LivePriceWebSocketClient.build_frame_payload,
    USStockLiveData.fromJson, Json.lookupAliased, vStr, vFloat, vInt,
    WsPayload.symbol, dictSet, dictGet,
    LivePriceWebSocketClient.get_handlers_for_symbol,
    except_ok_bind, Except.toOption, hsym]

theorem two_handlers_both_invoked_witness :
    (LivePriceWebSocketClient.handle_raw
        ((LivePriceWebSocketClient.subscribe
            ((LivePriceWebSocketClient.subscribe
                (LivePriceWebSocketClient.init [LivePriceFeed.LIVE_US] "user-3" {})
                ["AAPL"] LivePriceFeed.LIVE_US 7).1)
            ["AAPL"] LivePriceFeed.LIVE_US 8).1)
        (.obj [("type", .str "data"), ("feed", .str "live_price_us"),
          ("message", .obj [("s", .str "AAPL"), ("p", .int 190), ("t", .int 99)])])).2
      = [(7, .us { symbol := "AAPL", price := (190 : Int), date := 99 }),
         (8, .us { symbol := "AAPL", price := (190 : Int), date := 99 })] :=
  two_handlers_both_invoked_in_registration_order
    [LivePriceFeed.LIVE_US] "user-3" "AAPL" {} 7 8 ((190 : Int) : Rat) 99 (by decide)

/-- Claim C8 counterexample: `close()` has no closed-flag guard.  After
`close()` the client is closed, yet a subsequent (equally unguarded)
`subscribe` repopulates the subscription table; calling `close()` again on
this already-closed client clears the table — a further state change, so a
call on an already-closed client is not a no-op and no guard at the top
short-circuits it. -/
theorem close_on_closed_client_changes_state :
    ((LivePriceWebSocketClient.subscribe
        ((LivePriceWebSocketClient.close
          (LivePriceWebSocketClient.init [LivePriceFeed.LIVE_US] "user-4" {}) false).1)
        ["X"] LivePriceFeed.LIVE_US 0).1).is_closed = true
    ∧ ((LivePriceWebSocketClient.subscribe
        ((LivePriceWebSocketClient.close
          (LivePriceWebSocketClient.init [LivePriceFeed.LIVE_US] "user-4" {}) false).1)
        ["X"] LivePriceFeed.LIVE_US 0).1).subscriptions ≠ []
    ∧ (LivePriceWebSocketClient.close
        ((LivePriceWebSocketClient.subscribe
          ((LivePriceWebSocketClient.close
            (LivePriceWebSocketClient.init [LivePriceFeed.LIVE_US] "user-4" {}) false).1)
          ["X"] LivePriceFeed.LIVE_US 0).1) false).1
      ≠ ((LivePriceWebSocketClient.subscribe
          ((LivePriceWebSocketClient.close
            (LivePriceWebSocketClient.init [LivePriceFeed.LIVE_US] "user-4" {}) false).1)
          ["X"] LivePriceFeed.LIVE_US 0).1) := by
  refine ⟨by decide, by decide, by decide⟩

/-- Claim C8 (amended): `close()` is not guarded by the closed flag; on
every call — closed or not — it unconditionally clears the subscription
table, records `NORMAL_CLOSURE`, sets the closed flag and drops the socket
reference, raising nothing when closing the socket succeeds; it is
idempotent in effect (a second exception-free `close()` reproduces the same
state); and when an exception occurs while closing the socket, the
subscription table and the socket reference are still cleared before the
`CLOSE_ERROR` is raised. -/
theorem close_clears_state_even_on_exception (s : WSClientState) :
    ((LivePriceWebSocketClient.close s false).1.subscriptions = []
      ∧ (LivePriceWebSocketClient.close s false).1.websocket = false
      ∧ (LivePriceWebSocketClient.close s false).1.is_closed = true
      ∧ (LivePriceWebSocketClient.close s false).1.closed_reason
          = some WebSocketCloseReason.NORMAL_CLOSURE
      ∧ (LivePriceWebSocketClient.close s false).2 = none)
    ∧ (LivePriceWebSocketClient.close
          (LivePriceWebSocketClient.close s false).1 false).1
        = (LivePriceWebSocketClient.close s false).1
    ∧ ((LivePriceWebSocketClient.close s true).1.subscriptions = []
      ∧ (LivePriceWebSocketClient.close s true).1.websocket = false
      ∧ (LivePriceWebSocketClient.close s true).1.is_closed = true)
    ∧ (LivePriceWebSocketClient.close { s with websocket := true } true).2
        = some WebSocketErrorType.CLOSE_ERROR := by
  refine ⟨⟨rfl, rfl, rfl, rfl, ?_⟩, rfl, ⟨rfl, rfl, rfl⟩, ?_⟩
  · simp [LivePriceWebSocketClient.close]
  · simp [LivePriceWebSocketClient.close]

/-- Claim C9: the last-received-value cache is keyed by symbol alone, not
by `(symbol, feedKind)`.  Starting from one handler registered for
`(sym, LIVE_BIST)`: a BIST data frame for `sym` and then a US data frame
for `sym` leave a single cache entry for `sym` holding the US payload (the
cross-feed frame overwrote it); and a late second subscriber to
`(sym, LIVE_BIST)` has that US-feed payload replayed synchronously by
`subscribe`, even though it subscribed to a different feed than the one
that produced the cached value. -/
theorem last_value_cache_keyed_by_symbol_alone
    (feeds : List LivePriceFeed) (euid sym : String) (opts : WebsocketOptions)
    (h1 h2 : Nat) (p ch cl : Rat) (t d : Int) (hsym : sym ≠ "") :
    let s1 := (LivePriceWebSocketClient.subscribe
      (LivePriceWebSocketClient.init feeds euid opts) [sym]
      LivePriceFeed.LIVE_BIST h1).1
    let bistFrame : Json := .obj [("type", .str "data"), ("feed", .str "live_price_tr"),
      ("message", .obj [("symbol", .str sym), ("cl", .num cl),
        ("c", .num ch), ("d", .int d)])]
    let usFrame : Json := .obj [("type", .str "data"), ("feed", .str "live_price_us"),
      ("message", .obj [("s", .str sym), ("p", .num p), ("t", .int t)])]
    let s3 := (LivePriceWebSocketClient.handle_raw
      (LivePriceWebSocketClient.handle_raw s1 bistFrame).1 usFrame).1
    s3.symbol_last_data = [(sym, .us { symbol := sym, price := p, date := t })]
    ∧ (LivePriceWebSocketClient.subscribe s3 [sym] LivePriceFeed.LIVE_BIST h2).2.1
      = [(h2, .us { symbol := sym, price := p, date := t })] := by
  dsimp only
  have hs1 : ((LivePriceWebSocketClient.subscribe
      (LivePriceWebSocketClient.init feeds euid opts) [sym]
      LivePriceFeed.LIVE_BIST h1).1)
    = { feeds := feeds, external_user_id := euid, options := opts,
        subscription_counter := 1,
        subscriptions := [(0, { symbols := [sym], feed := .LIVE_BIST, handler := h1 })] } := rfl
  rw [hs1]
  have hs2 : (LivePriceWebSocketClient.handle_raw
      ({ feeds := feeds, external_user_id := euid, options := opts,
         subscription_counter := 1,
         subscriptions := [(0, { symbols := [sym], feed := .LIVE_BIST, handler := h1 })] } : WSClientState)
      (.obj [("type", .str "data"), ("feed", .str "live_price_tr"),
        ("message", .obj [("symbol", .str sym), ("cl", .num cl),
          ("c", .num ch), ("d", .int d)])])).1
    = { feeds := feeds, external_user_id := euid, options := opts,
        subscription_counter := 1,
        subscriptions := [(0, { symbols := [sym], feed := .LIVE_BIST, handler := h1 })],
        symbol_last_data := [(sym, .bist ⟨sym, ch, cl, d⟩)] } := by
    simp [LivePriceWebSocketClient.handle_raw, Json.getField,
      LivePriceFeed.fromWire, LivePriceWebSocketClient.jsonTruthy,
      LivePriceWebSocketClient.build_frame_payload,
      BISTStockLiveData.fromJson, Json.lookupAliased, vStr, vFloat, vInt,
      WsPayload.symbol, dictSet, dictGet,
      LivePriceWebSocketClient.get_handlers_for_symbol,
      except_ok_bind, Except.toOption, hsym]
  rw [hs2]
  have hs3 : (LivePriceWebSocketClient.handle_raw
      ({ feeds := feeds, external_user_id := euid, options := opts,
         subscription_counter := 1,
         subscriptions := [(0, { symbols := [sym], feed := .LIVE_BIST, handler := h1 })],
         symbol_last_data := [(sym, .bist ⟨sym, ch, cl, d⟩)] } : WSClientState)
      (.obj [("type", .str "data"), ("feed", .str "live_price_us"),
        ("message", .obj [("s", .str sym), ("p", .num p), ("t", .int t)])])).1
    = { feeds := feeds, external_user_id := euid, options := opts,
        subscription_counter := 1,
        subscriptions := [(0, { symbols := [sym], feed := .LIVE_BIST, handler := h1 })],
        symbol_last_data := [(sym, .us { symbol := sym, price := p, date := t })] } := by
    simp [LivePriceWebSocketClient.handle_raw, Json.getField,
      LivePriceFeed.fromWire, LivePriceWebSocketClient.jsonTruthy,
      LivePriceWebSocketClient.build_frame_payload,
      USStockLiveData.fromJson, Json.lookupAliased, vStr, vFloat, vInt,
      WsPayload.symbol, dictSet, dictGet,
      LivePriceWebSocketClient.get_handlers_for_symbol,
      except_ok_bind, Except.toOption, hsym]
  rw [hs3]
  refine ⟨rfl, ?_⟩
  simp [LivePriceWebSocketClient.subscribe,
    LivePriceWebSocketClient.get_handlers_for_symbol, dictGet, hsym]

theorem last_value_cache_keyed_by_symbol_alone_witness :
    let s1 := (LivePriceWebSocketClient.subscribe
      (LivePriceWebSocketClient.init [LivePriceFeed.LIVE_BIST] "user-5" {}) ["TUPRS"]
      LivePriceFeed.LIVE_BIST 1).1
    let bistFrame : Json := .obj [("type", .str "data"), ("feed", .str "live_price_tr"),
      ("message", .obj [("symbol", .str "TUPRS"), ("cl", .num ((5 : Int) : Rat)),
        ("c", .num ((2 : Int) : Rat)), ("d", .int 3)])]
    let usFrame : Json := .obj [("type", .str "data"), ("feed", .str "live_price_us"),
      ("message", .obj [("s", .str "TUPRS"), ("p", .num ((9 : Int) : Rat)), ("t", .int 7)])]
    let s3 := (LivePriceWebSocketClient.handle_raw
      (LivePriceWebSocketClient.handle_raw s1 bistFrame).1 usFrame).1
    s3.symbol_last_data
      = [("TUPRS", .us { symbol := "TUPRS", price := ((9 : Int) : Rat), date := 7 })]
    ∧ (LivePriceWebSocketClient.subscribe s3 ["TUPRS"] LivePriceFeed.LIVE_BIST 2).2.1
      = [(2, .us { symbol := "TUPRS", price := ((9 : Int) : Rat), date := 7 })] :=
  last_value_cache_keyed_by_symbol_alone [LivePriceFeed.LIVE_BIST] "user-5" "TUPRS" {}
    1 2 ((9 : Int) : Rat) ((2 : Int) : Rat) ((5 : Int) : Rat) 7 3 (by decide)
